import Mathlib

/-!
Formal model of the giopler telemetry pipeline: the Record data model
(include/giopler/record.hpp), the SinkManager (include/giopler/sink.hpp)
and the REST delivery sink (include/giopler/linux/rest_sink.hpp).

Records are `std::unordered_map<std::string, RecordValue>`; a Record is
modelled as its iteration sequence, a list of key/value pairs.  Machine
integers are modelled as `Int`/`Nat` with explicit reduction modulo `2^64`
where the C++ computes in `std::size_t`; `double` is modelled as `Rat`.
-/

namespace Giopler

/-- type tag of a RecordValue (record.hpp, `RecordValue::Type`). -/
inductive RVType where
  | empty
  | boolean
  | integer
  | real
  | string
  | timestamp
deriving DecidableEq

/-- a RecordValue as the sum of its variants: Empty, Boolean, Integer (64-bit
signed, modelled as `Int`), Real (`double`, modelled as `Rat`), String, and
Timestamp (an epoch instant, modelled as its nanosecond count). -/
inductive RecordValue where
  | empty : RecordValue
  | boolean (b : Bool) : RecordValue
  | integer (i : Int) : RecordValue
  | real (r : Rat) : RecordValue
  | string (s : String) : RecordValue
  | timestamp (t : Int) : RecordValue
deriving DecidableEq

/-- a Record: `std::unordered_map<std::string, RecordValue>`, modelled as its
iteration sequence (keys unique in any map actually built). -/
abbrev Record := List (String × RecordValue)

/-- `Record::contains`. -/
def containsKey (r : Record) (k : String) : Bool :=
  r.any (fun kv => kv.1 == k)

/-- `Record::at`, as an Option: the value stored under the key. -/
def lookupKey (r : Record) (k : String) : Option RecordValue :=
  match r with
  | [] => none
  | kv :: rest => if kv.1 == k then some kv.2 else lookupKey rest k

/-- `std::unordered_map::merge`, viewed from the target map: every entry of
`o` whose key is not already present in `r` is added; entries of `r` are
never overwritten. -/
def mergeRecord (r o : Record) : Record :=
  r ++ o.filter (fun kv => !(containsKey r kv.1))

theorem lookup_append (l1 l2 : Record) (k : String) :
    lookupKey (l1 ++ l2) k =
      if containsKey l1 k then lookupKey l1 k else lookupKey l2 k := by
  induction l1 with
  | nil => simp [containsKey, lookupKey]
  | cons kv rest ih =>
    simp only [List.cons_append, lookupKey, containsKey, List.any_cons]
    cases hb : (kv.1 == k) with
    | true => simp
    | false => simpa [containsKey] using ih

theorem lookup_filter_of_not_contains (o r : Record) (k : String)
    (h : containsKey r k = false) :
    lookupKey (o.filter (fun kv => !(containsKey r kv.1))) k = lookupKey o k := by
  induction o with
  | nil => rfl
  | cons kv rest ih =>
    by_cases hk : kv.1 == k
    · have hk2 : kv.1 = k := by simpa using hk
      simp [List.filter_cons, hk2, h, lookupKey]
    · by_cases hc : containsKey r kv.1
      · simp [List.filter_cons, hc, ih, lookupKey, hk]
      · simp [List.filter_cons, hc, ih, lookupKey, hk]

/-- C6: Record merge is first-writer-wins.  Merging `o` into `r` leaves every
key of `r` at its value in `r` and adds exactly the entries of `o` whose keys
are absent from `r`; in particular merging `a:1` and then `a:2` into an empty
record yields `a:1`. -/
theorem merge_first_writer_wins :
    (∀ (r o : Record) (k : String),
       lookupKey (mergeRecord r o) k =
         if containsKey r k then lookupKey r k else lookupKey o k) ∧
    lookupKey (mergeRecord (mergeRecord [] [("a", RecordValue.integer 1)])
        [("a", RecordValue.integer 2)]) "a" = some (RecordValue.integer 1) := by
  constructor
  · intro r o k
    unfold mergeRecord
    rw [lookup_append]
    by_cases h : containsKey r k
    · simp [h]
    · simp only [h, if_false, Bool.false_eq_true]
      exact lookup_filter_of_not_contains o r k (by simpa using h)
  · rfl

/-- ns_to_sec (record.hpp): the scale factor converting nanoseconds to
seconds. -/
def ns_to_sec : Rat := 1 / 1000000000

/-- one catalog entry: value type, key category, scale factor
(record.hpp `RecordCatalogInfo`). -/
abbrev RecordCatalogInfo := RVType × String × Rat

/-- the static record catalog (record.hpp `get_record_catalog`): every valid
key with its type, category and scale factor. -/
def get_record_catalog : List (String × RecordCatalogInfo) := [
  ("prog.run_id",                 (RVType.string,    "prog", 1)),
  ("prog.start_ts",               (RVType.timestamp, "prog", 1)),
  ("prog.memory_page_size",       (RVType.integer,   "prog", 1)),
  ("prog.physical_memory",        (RVType.integer,   "prog", 1)),
  ("prog.total_cpu_cores",        (RVType.integer,   "prog", 1)),
  ("prog.available_cpu_cores",    (RVType.integer,   "prog", 1)),
  ("prog.program_name",           (RVType.string,    "prog", 1)),
  ("prog.process_id",             (RVType.integer,   "prog", 1)),
  ("prog.build_mode",             (RVType.string,    "prog", 1)),
  ("evt.record_type",             (RVType.string,    "evt", 1)),
  ("evt.event_category",          (RVType.string,    "evt", 1)),
  ("evt.event",                   (RVType.string,    "evt", 1)),
  ("loc.file",                    (RVType.string,    "loc", 1)),
  ("loc.line",                    (RVType.integer,   "loc", 1)),
  ("loc.function",                (RVType.string,    "loc", 1)),
  ("trc.function",                (RVType.string,    "trc", 1)),
  ("trc.parent_function",         (RVType.string,    "trc", 1)),
  ("val.timestamp",               (RVType.timestamp, "val", 1)),
  ("val.thread_id",               (RVType.integer,   "val", 1)),
  ("val.cpu_id",                  (RVType.integer,   "val", 1)),
  ("val.available_memory",        (RVType.integer,   "val", 1)),
  ("val.message",                 (RVType.string,    "val", 1)),
  ("prof.workload",               (RVType.real,      "prof.all", 1)),
  ("prof.duration",               (RVType.real,      "prof.all", ns_to_sec)),
  ("prof.sw.cpu_clock",           (RVType.real,      "prof.linux.sw", ns_to_sec)),
  ("prof.sw.task_clock",          (RVType.real,      "prof.linux.sw", ns_to_sec)),
  ("prof.sw.page_faults",         (RVType.integer,   "prof.linux.sw", 1)),
  ("prof.sw.context_switches",    (RVType.integer,   "prof.linux.sw", 1)),
  ("prof.sw.cpu_migrations",      (RVType.integer,   "prof.linux.sw", 1)),
  ("prof.sw.page_faults_min",     (RVType.integer,   "prof.linux.sw", 1)),
  ("prof.sw.page_faults_maj",     (RVType.integer,   "prof.linux.sw", 1)),
  ("prof.sw.alignment_faults",    (RVType.integer,   "prof.linux.sw", 1)),
  ("prof.sw.emulation_faults",    (RVType.integer,   "prof.linux.sw", 1)),
  ("prof.hw.cpu_cycles",          (RVType.integer,   "prof.linux.hw", 1)),
  ("prof.hw.instructions",        (RVType.integer,   "prof.linux.hw", 1)),
  ("prof.hw.stall_cycles_front",  (RVType.integer,   "prof.linux.hw", 1)),
  ("prof.hw.stall_cycles_back",   (RVType.integer,   "prof.linux.hw", 1)),
  ("prof.hw.branch_instructions", (RVType.integer,   "prof.linux.hw", 1)),
  ("prof.hw.branch_misses",       (RVType.integer,   "prof.linux.hw", 1)),
  ("prof.hw.cache_references",    (RVType.integer,   "prof.linux.hw", 1)),
  ("prof.hw.cache_misses",        (RVType.integer,   "prof.linux.hw", 1))]

/-- `std::string_view::starts_with`, over the character sequence. -/
def strStartsWith (s p : String) : Bool :=
  s.data.take p.data.length == p.data

/-- `record_catalog.contains(key)` over a given catalog. -/
def catalogContains (catalog : List (String × RecordCatalogInfo))
    (key : String) : Bool :=
  catalog.any (fun e => e.1 == key)

/-- `is_valid_record_key` (record.hpp), with the catalog it consults made
explicit: keys beginning with "attr." are accepted outright, all others must
appear in the catalog. -/
def is_valid_record_key_in (catalog : List (String × RecordCatalogInfo))
    (key : String) : Bool :=
  if strStartsWith key "attr." then true else catalogContains catalog key

/-- `is_valid_record_key` against the static record catalog. -/
def is_valid_record_key (key : String) : Bool :=
  is_valid_record_key_in get_record_catalog key

/-- C9: a key beginning with "attr." is valid no matter what the catalog
holds; any other key is valid exactly when it appears in the static record
catalog. -/
theorem valid_key_attr_or_catalog :
    (∀ (catalog : List (String × RecordCatalogInfo)) (key : String),
       strStartsWith key "attr." = true → is_valid_record_key_in catalog key = true) ∧
    (∀ key : String, strStartsWith key "attr." = false →
       (is_valid_record_key key = true ↔
         catalogContains get_record_catalog key = true)) := by
  constructor
  · intro catalog key h
    simp [is_valid_record_key_in, h]
  · intro key h
    simp [is_valid_record_key, is_valid_record_key_in, h]

theorem valid_key_attr_or_catalog_witness :
    is_valid_record_key_in [] "attr.answer" = true ∧
    (is_valid_record_key "prog.run_id" = true ↔
      catalogContains get_record_catalog "prog.run_id" = true) :=
  ⟨valid_key_attr_or_catalog.1 [] "attr.answer" (by decide),
   valid_key_attr_or_catalog.2 "prog.run_id" (by decide)⟩

/-- 2^64, the modulus of `std::size_t` arithmetic. -/
def U64 : Nat := 18446744073709551616

/-- giopler::hash_combine (utility.hpp):
`seed ^= std::hash(v) + 0x9e3779b9 + (seed << 6) + (seed >> 2)`, with the
sum wrapping in `std::size_t`. -/
def hash_combine (seed h : Nat) : Nat :=
  seed ^^^ ((h + 2654435769 + seed * 64 + seed / 4) % U64)

/-- `std::hash` of a 64-bit integer: the identity on the two's-complement bit
pattern. -/
def hashInt (i : Int) : Nat := (i % (U64 : Int)).toNat

/-- `std::hash<bool>`. -/
def hashBool (b : Bool) : Nat := if b then 1 else 0

/-- model of the implementation-defined `std::hash<std::string>`, as a
polynomial hash of the character sequence modulo 2^64. -/
def hashString (s : String) : Nat :=
  s.data.foldl (fun h c => (h * 131 + c.toNat) % U64) 5381

/-- model of the implementation-defined `std::hash<double>`, on the `Rat`
model of `double`: a mix of numerator and denominator. -/
def hashRat (r : Rat) : Nat := hash_combine (hashInt r.num) (r.den % U64)

/-- `std::hash<Timestamp>` (utility.hpp): the hash of the nanosecond count. -/
def hashTimestamp (t : Int) : Nat := hashInt t

/-- `std::hash` of the `RecordValue::Type` enum: its underlying value. -/
def hashType : RVType → Nat
  | RVType.empty => 0
  | RVType.boolean => 1
  | RVType.integer => 2
  | RVType.real => 3
  | RVType.string => 4
  | RVType.timestamp => 5

/-- the C++ `RecordValue` class layout (record.hpp): a type tag plus one data
member per variant; only the member selected by the tag is meaningful, the
others are default-initialized and are only ever written by the matching
`set_X` mutator. -/
structure RVRepr where
  type : RVType
  booleanValue : Bool
  integerValue : Int
  realValue : Rat
  stringValue : String
  timestampValue : Int
deriving DecidableEq

/-- `RecordValue()` and `RecordValue(Type)`: tag set, every member default. -/
def RVRepr.ofType (t : RVType) : RVRepr := ⟨t, false, 0, 0, "", 0⟩

/-- `RecordValue(bool)`. -/
def RVRepr.ofBool (b : Bool) : RVRepr := ⟨RVType.boolean, b, 0, 0, "", 0⟩

/-- `RecordValue(int64_t)` (also the narrowing integral overloads). -/
def RVRepr.ofInt (i : Int) : RVRepr := ⟨RVType.integer, false, i, 0, "", 0⟩

/-- `RecordValue(double)`. -/
def RVRepr.ofReal (r : Rat) : RVRepr := ⟨RVType.real, false, 0, r, "", 0⟩

/-- `RecordValue(std::string)` (and the string_view / char pointer
overloads). -/
def RVRepr.ofString (s : String) : RVRepr := ⟨RVType.string, false, 0, 0, s, 0⟩

/-- `RecordValue(Timestamp)`. -/
def RVRepr.ofTimestamp (t : Int) : RVRepr := ⟨RVType.timestamp, false, 0, 0, "", t⟩

/-- `set_boolean`: asserts the active tag is Boolean, then stores; none models
the assertion firing. -/
def RVRepr.setBoolean (v : RVRepr) (b : Bool) : Option RVRepr :=
  if v.type = RVType.boolean then some { v with booleanValue := b } else none

/-- `set_integer`. -/
def RVRepr.setInteger (v : RVRepr) (i : Int) : Option RVRepr :=
  if v.type = RVType.integer then some { v with integerValue := i } else none

/-- `set_real`. -/
def RVRepr.setReal (v : RVRepr) (r : Rat) : Option RVRepr :=
  if v.type = RVType.real then some { v with realValue := r } else none

/-- `set_string`. -/
def RVRepr.setString (v : RVRepr) (s : String) : Option RVRepr :=
  if v.type = RVType.string then some { v with stringValue := s } else none

/-- `set_timestamp`. -/
def RVRepr.setTimestamp (v : RVRepr) (t : Int) : Option RVRepr :=
  if v.type = RVType.timestamp then some { v with timestampValue := t } else none

/-- `RecordValue::operator==`: the tags must agree, then only the member
selected by the tag is compared. -/
def rvEq (a b : RVRepr) : Bool :=
  if a.type = b.type then
    match a.type with
    | RVType.empty => true
    | RVType.boolean => a.booleanValue == b.booleanValue
    | RVType.integer => a.integerValue == b.integerValue
    | RVType.real => a.realValue == b.realValue
    | RVType.string => a.stringValue == b.stringValue
    | RVType.timestamp => a.timestampValue == b.timestampValue
  else false

/-- `std::hash<RecordValue>` (record.hpp): hash_combine over the tag and
every data member, the inactive ones included. -/
def hashRecordValue (v : RVRepr) : Nat :=
  let s1 := hash_combine 0 (hashType v.type)
  let s2 := hash_combine s1 (hashBool v.booleanValue)
  let s3 := hash_combine s2 (hashInt v.integerValue)
  let s4 := hash_combine s3 (hashRat v.realValue)
  let s5 := hash_combine s4 (hashString v.stringValue)
  hash_combine s5 (hashTimestamp v.timestampValue)

/-- `std::hash<Record>` (record.hpp): a sorted vector of the keys is built,
but the fold then runs over the map's own iteration sequence; the sorted
vector is never read. -/
def hashRecord (record : List (String × RVRepr)) : Nat :=
  let _sortedKeys :=
    (record.map Prod.fst).insertionSort (fun a b => a ≤ b)
  record.foldl
    (fun seed kv => hash_combine (hash_combine seed (hashString kv.1))
      (hashRecordValue kv.2)) 0

/-- C3, evaluated at the failing input: the same two key/value pairs visited
in the two possible iteration orders hash differently, because the fold
follows the iteration order and not the sorted keys. -/
theorem hashRecord_depends_on_iteration_order :
    hashRecord [("a", RVRepr.ofInt 1), ("b", RVRepr.ofInt 2)] ≠
      hashRecord [("b", RVRepr.ofInt 2), ("a", RVRepr.ofInt 1)] := by
  decide

/-- the inactive data members of a RecordValue hold their default values. -/
def RVRepr.wf (v : RVRepr) : Prop :=
  (v.type = RVType.boolean ∨ v.booleanValue = false) ∧
  (v.type = RVType.integer ∨ v.integerValue = 0) ∧
  (v.type = RVType.real ∨ v.realValue = 0) ∧
  (v.type = RVType.string ∨ v.stringValue = "") ∧
  (v.type = RVType.timestamp ∨ v.timestampValue = 0)

/-- the RecordValues obtainable through the public constructors and the
`set_X` mutators (a successful mutation, i.e. one whose type assertion
holds). -/
inductive Reachable : RVRepr → Prop where
  | ofType (t : RVType) : Reachable (RVRepr.ofType t)
  | ofBool (b : Bool) : Reachable (RVRepr.ofBool b)
  | ofInt (i : Int) : Reachable (RVRepr.ofInt i)
  | ofReal (r : Rat) : Reachable (RVRepr.ofReal r)
  | ofString (s : String) : Reachable (RVRepr.ofString s)
  | ofTimestamp (t : Int) : Reachable (RVRepr.ofTimestamp t)
  | setBoolean (v : RVRepr) (b : Bool) (w : RVRepr) :
      Reachable v → v.setBoolean b = some w → Reachable w
  | setInteger (v : RVRepr) (i : Int) (w : RVRepr) :
      Reachable v → v.setInteger i = some w → Reachable w
  | setReal (v : RVRepr) (r : Rat) (w : RVRepr) :
      Reachable v → v.setReal r = some w → Reachable w
  | setString (v : RVRepr) (s : String) (w : RVRepr) :
      Reachable v → v.setString s = some w → Reachable w
  | setTimestamp (v : RVRepr) (t : Int) (w : RVRepr) :
      Reachable v → v.setTimestamp t = some w → Reachable w

theorem reachable_wf (v : RVRepr) (h : Reachable v) : v.wf := by
  induction h with
  | ofType t => simp [RVRepr.wf, RVRepr.ofType]
  | ofBool b => simp [RVRepr.wf, RVRepr.ofBool]
  | ofInt i => simp [RVRepr.wf, RVRepr.ofInt]
  | ofReal r => simp [RVRepr.wf, RVRepr.ofReal]
  | ofString s => simp [RVRepr.wf, RVRepr.ofString]
  | ofTimestamp t => simp [RVRepr.wf, RVRepr.ofTimestamp]
  | setBoolean v b w hv hset ih =>
    unfold RVRepr.setBoolean at hset
    split at hset
    · cases hset
      unfold RVRepr.wf at ih ⊢
      simp_all
    · cases hset
  | setInteger v i w hv hset ih =>
    unfold RVRepr.setInteger at hset
    split at hset
    · cases hset
      unfold RVRepr.wf at ih ⊢
      simp_all
    · cases hset
  | setReal v r w hv hset ih =>
    unfold RVRepr.setReal at hset
    split at hset
    · cases hset
      unfold RVRepr.wf at ih ⊢
      simp_all
    · cases hset
  | setString v s w hv hset ih =>
    unfold RVRepr.setString at hset
    split at hset
    · cases hset
      unfold RVRepr.wf at ih ⊢
      simp_all
    · cases hset
  | setTimestamp v t w hv hset ih =>
    unfold RVRepr.setTimestamp at hset
    split at hset
    · cases hset
      unfold RVRepr.wf at ih ⊢
      simp_all
    · cases hset

theorem rvEq_of_wf (a b : RVRepr) (ha : a.wf) (hb : b.wf)
    (h : rvEq a b = true) : a = b := by
  obtain ⟨ta, fa1, fa2, fa3, fa4, fa5⟩ := a
  obtain ⟨tb, fb1, fb2, fb3, fb4, fb5⟩ := b
  unfold rvEq at h
  by_cases ht : ta = tb
  · subst ht
    obtain ⟨ha1, ha2, ha3, ha4, ha5⟩ := ha
    obtain ⟨hb1, hb2, hb3, hb4, hb5⟩ := hb
    cases ta <;> simp_all
  · simp [ht] at h

/-- C10: RecordValue hashing agrees with RecordValue equality.  For any two
RecordValues built through the public constructors and `set_X` mutators,
`operator==` compares only the active member, and the inactive members hold
their defaults, so equal values hash equally. -/
theorem recordvalue_hash_congruent_with_eq (a b : RVRepr)
    (ha : Reachable a) (hb : Reachable b) (h : rvEq a b = true) :
    hashRecordValue a = hashRecordValue b := by
  have : a = b :=
    rvEq_of_wf a b (reachable_wf a ha) (reachable_wf b hb) h
  rw [this]

theorem recordvalue_hash_congruent_with_eq_witness :
    hashRecordValue (RVRepr.ofInt 7) = hashRecordValue (RVRepr.ofInt 7) :=
  recordvalue_hash_congruent_with_eq (RVRepr.ofInt 7) (RVRepr.ofInt 7)
    (Reachable.ofInt 7) (Reachable.ofInt 7) (by decide)

/-- `record_catalog.find(key)`, giving the catalog info when the key is
registered. -/
def catalogFind (key : String) : Option RecordCatalogInfo :=
  match get_record_catalog.find? (fun e => e.1 == key) with
  | some e => some e.2
  | none => none

/-- `get_record_scale` (record.hpp): `record_catalog.at(key)` throws
`std::out_of_range` for a key that is not in the catalog. -/
def get_record_scale (key : String) : Except String Rat :=
  match catalogFind key with
  | some info => Except.ok info.2.2
  | none => Except.error "std::out_of_range"

/-- one key/value pair as emitted by `record_to_json`; the character-level
rendering done by `std::format` is not modelled, only which value is
written for which field. -/
inductive Jval where
  | jbool (b : Bool) : Jval
  | jint (i : Int) : Jval
  | jreal (r : Rat) : Jval
  | jstr (s : String) : Jval
  | jts (t : Int) : Jval
deriving DecidableEq

/-- `record_to_json` (record.hpp): walks the field list in order, skips the
fields absent from the record, scales Integer fields whose catalog scale is
not 1 (emitting a Real) and always scales Real fields; an Empty value hits
`assert(false)` and a numeric field absent from the catalog makes
`get_record_scale` throw, both modelled as errors. -/
def record_to_json (fields : List String) (record : Record) :
    Except String (List (String × Jval)) :=
  match fields with
  | [] => Except.ok []
  | field :: rest =>
    match lookupKey record field with
    | none => record_to_json rest record
    | some v =>
      match v with
      | RecordValue.boolean b => do
          let tail ← record_to_json rest record
          Except.ok ((field, Jval.jbool b) :: tail)
      | RecordValue.integer i => do
          let scale ← get_record_scale field
          let tail ← record_to_json rest record
          Except.ok ((field,
            if scale == 1 then Jval.jint i else Jval.jreal ((i : Rat) * scale))
            :: tail)
      | RecordValue.real r => do
          let scale ← get_record_scale field
          let tail ← record_to_json rest record
          Except.ok ((field, Jval.jreal (r * scale)) :: tail)
      | RecordValue.string s => do
          let tail ← record_to_json rest record
          Except.ok ((field, Jval.jstr s) :: tail)
      | RecordValue.timestamp t => do
          let tail ← record_to_json rest record
          Except.ok ((field, Jval.jts t) :: tail)
      | RecordValue.empty => Except.error "assert(false)"

/-- the scale the claim speaks of: the factor registered in the catalog
(1 when none is registered; the theorems only use it where one is). -/
def specScale (field : String) : Rat :=
  match catalogFind field with
  | some info => info.2.2
  | none => 1

/-- the value the claim says is emitted for a field: numerics multiplied by
the registered scale factor, everything else verbatim. -/
def specJval (field : String) : RecordValue → Jval
  | RecordValue.boolean b => Jval.jbool b
  | RecordValue.integer i =>
      if specScale field == 1 then Jval.jint i
      else Jval.jreal ((i : Rat) * specScale field)
  | RecordValue.real r => Jval.jreal (r * specScale field)
  | RecordValue.string s => Jval.jstr s
  | RecordValue.timestamp t => Jval.jts t
  | RecordValue.empty => Jval.jbool false

/-- serialization as the claim words it: exactly the listed fields present in
the record, in list order, absent fields silently omitted, numerics scaled. -/
def record_to_json_spec (fields : List String) (record : Record) :
    List (String × Jval) :=
  fields.filterMap (fun field =>
    (lookupKey record field).map (fun v => (field, specJval field v)))

/-- a listed field serializes without error: either absent from the record,
or present with a non-Empty value that, when numeric, is registered in the
catalog. -/
def goodField (record : Record) (field : String) : Bool :=
  match lookupKey record field with
  | none => true
  | some RecordValue.empty => false
  | some (RecordValue.integer _) => (catalogFind field).isSome
  | some (RecordValue.real _) => (catalogFind field).isSome
  | some _ => true

/-- C7 counterexample: a numeric field outside the catalog (here the
user-defined attribute `attr.x`) makes serialization throw
`std::out_of_range` instead of emitting the field. -/
theorem record_to_json_attr_numeric_throws :
    record_to_json ["attr.x"] [("attr.x", RecordValue.integer 1)] =
      Except.error "std::out_of_range" := by
  rfl

/-- C7 as amended: when every listed field is either absent, or present with
a non-Empty value that is registered in the catalog whenever it is numeric,
serialization emits exactly the listed fields present in the record, in list
order, silently omitting the absent ones, with numeric values multiplied by
their registered scale factor. -/
theorem record_to_json_emits_listed_present_scaled
    (fields : List String) (record : Record)
    (h : fields.all (goodField record) = true) :
    record_to_json fields record =
      Except.ok (record_to_json_spec fields record) := by
  induction fields with
  | nil => rfl
  | cons field rest ih =>
    rw [List.all_cons, Bool.and_eq_true] at h
    obtain ⟨hf, hrest⟩ := h
    have htail := ih hrest
    cases hv : lookupKey record field with
    | none =>
      simp [record_to_json, record_to_json_spec, List.filterMap_cons, hv, htail]
    | some v =>
      cases v with
      | empty => simp [goodField, hv] at hf
      | boolean b =>
        simp [record_to_json, record_to_json_spec, List.filterMap_cons, hv,
          htail, specJval, Except.bind, bind]
      | integer i =>
        simp only [goodField, hv] at hf
        cases hcat : catalogFind field with
        | none => rw [hcat] at hf; simp at hf
        | some info =>
          simp [record_to_json, record_to_json_spec, List.filterMap_cons, hv,
            htail, specJval, specScale, get_record_scale, hcat, beq_iff_eq,
            Except.bind, bind]
      | real r =>
        simp only [goodField, hv] at hf
        cases hcat : catalogFind field with
        | none => rw [hcat] at hf; simp at hf
        | some info =>
          simp [record_to_json, record_to_json_spec, List.filterMap_cons, hv,
            htail, specJval, specScale, get_record_scale, hcat, beq_iff_eq,
            Except.bind, bind]
      | string s =>
        simp [record_to_json, record_to_json_spec, List.filterMap_cons, hv,
          htail, specJval, Except.bind, bind]
      | timestamp t =>
        simp [record_to_json, record_to_json_spec, List.filterMap_cons, hv,
          htail, specJval, Except.bind, bind]

theorem record_to_json_emits_listed_present_scaled_witness :
    record_to_json ["prof.duration", "val.message", "prog.run_id"]
        [("val.message", RecordValue.string "hi"),
         ("prof.duration", RecordValue.real 5)] =
      Except.ok (record_to_json_spec
        ["prof.duration", "val.message", "prog.run_id"]
        [("val.message", RecordValue.string "hi"),
         ("prof.duration", RecordValue.real 5)]) :=
  record_to_json_emits_listed_present_scaled _ _ (by decide)

/-- a pending sink worker (`std::future<bool>` in `SinkManager::_workers`),
described by the number of time units until its `write_record` call
completes; none models a call that never completes. -/
abbrev Worker := Option Nat

/-- `SinkManager::wait_workers`: `remove_if` calls `fut.wait()` on every
worker in turn, and `fut.wait()` returns only once that worker completes.
The result is the total time the caller is blocked; none when some worker
never completes, in which case the call never returns. -/
def wait_workers (workers : List Worker) : Option Nat :=
  match workers with
  | [] => some 0
  | w :: rest =>
    match w with
    | some t => (wait_workers rest).map (fun u => t + u)
    | none => none

/-- `SinkManager::flush` (also run by the destructor): takes the lock and
waits on all pending workers, then flushes every sink; only the worker waits
can block. -/
def flushManager (workers : List Worker) : Option Nat :=
  wait_workers workers

/-- C1 counterexample: with a single pending worker whose `write_record`
never completes, `flush()` never returns; there is no timeout after which
delivery is abandoned. -/
theorem flush_hung_worker_never_returns :
    (flushManager [none]).isSome = false := by
  rfl

/-- C1 as amended: `flush()` (and hence the SinkManager destructor) blocks
until every pending worker completes, however long that takes: it returns
exactly when all pending `write_record` futures complete, and a worker that
never completes blocks `flush()` forever.  No timeout is applied and no
pending delivery is ever abandoned by `flush()`. -/
theorem flush_waits_for_all_workers_unboundedly :
    (∀ workers : List Worker,
       (flushManager workers).isSome = true ↔ ∀ w ∈ workers, w.isSome = true) ∧
    (∀ t : Nat, flushManager [some t] = some t) := by
  constructor
  · intro workers
    induction workers with
    | nil => simp [flushManager, wait_workers]
    | cons w rest ih =>
      cases w with
      | none => simp [flushManager, wait_workers]
      | some t =>
        simp [flushManager, wait_workers, Option.isSome_map] at ih ⊢
        exact ih
  · intro t
    simp [flushManager, wait_workers]

theorem flush_waits_for_all_workers_unboundedly_witness :
    (flushManager [some 3]).isSome = true :=
  (flush_waits_for_all_workers_unboundedly.1 [some 3]).mpr (by decide)

/-- the sinks `SinkManager::create_sinks` can install. -/
inductive SinkKind where
  | csv : SinkKind
  | json : SinkKind
  | rest (token : String) : SinkKind
deriving DecidableEq

/-- a sink is the REST delivery sink. -/
def SinkKind.isRest : SinkKind → Bool
  | SinkKind.rest _ => true
  | _ => false

/-- `SinkManager::create_sinks` (sink.hpp): when no sinks are defined yet it
installs the Csv console sink, then the Rest delivery sink when the
GIOPLER_TOKEN environment variable is set, and otherwise a Json file sink
over all record keys. -/
def create_sinks (giopler_token : Option String) (sinks : List SinkKind) :
    List SinkKind :=
  if sinks.isEmpty then
    let sinks1 := sinks ++ [SinkKind.csv]
    match giopler_token with
    | some token => sinks1 ++ [SinkKind.rest token]
    | none => sinks1 ++ [SinkKind.json]
  else sinks

/-- C2 counterexample: with GIOPLER_TOKEN absent, sink creation returns
normally with the Csv console sink and a Json file sink — telemetry is
redirected to a local JSON file, the Rest delivery path is not built, and
no configuration error is raised. -/
theorem create_sinks_missing_token_no_error :
    create_sinks none [] = [SinkKind.csv, SinkKind.json] ∧
    (create_sinks none []).any SinkKind.isRest = false := by
  constructor
  · rfl
  · rfl

/-- C2 as amended: when GIOPLER_TOKEN is absent, `create_sinks` silently
falls back to a Json file sink next to the Csv console sink instead of
raising any error, and the Rest delivery sink is created exactly when the
token is present. -/
theorem create_sinks_token_selects_delivery :
    SinkKind.json ∈ create_sinks none [] ∧
    (create_sinks none []).any SinkKind.isRest = false ∧
    (∀ token : String,
       create_sinks (some token) [] = [SinkKind.csv, SinkKind.rest token]) := by
  refine ⟨by decide, by decide, ?_⟩
  intro token
  rfl

/-- the connection state owned by the Rest sink: whether the OpenSSL
bio/ctx pair is open, the SSL shutdown flag reported by
`SSL_get_shutdown`, and how many TLS handshakes have been performed. -/
structure RestConn where
  isOpen : Bool
  shutdownFlag : Bool
  handshakes : Nat
deriving DecidableEq

/-- the Rest sink state after construction: no connection has been opened
(the constructor's `open_connection` call is commented out). -/
def restInit : RestConn := ⟨false, false, 0⟩

/-- `Rest::open_connection`: a full TLS handshake producing fresh SSL
objects. -/
def open_connection (s : RestConn) : RestConn :=
  { isOpen := true, shutdownFlag := false, handshakes := s.handshakes + 1 }

/-- `Rest::close_connection`: frees the bio and the ctx. -/
def close_connection (s : RestConn) : RestConn :=
  { s with isOpen := false, shutdownFlag := false }

/-- `Rest::check_reopen_connection`: when the SSL shutdown flag is set, the
connection is closed and reopened and true is returned; otherwise the state
is untouched. -/
def check_reopen_connection (s : RestConn) : RestConn × Bool :=
  if s.shutdownFlag then (open_connection (close_connection s), true)
  else (s, false)

/-- `Rest::https_post`: opens a connection, sends the request, reads the
response, and closes the connection again; the `check_reopen_connection`
call sites in its body are commented out in the source. -/
def https_post (s : RestConn) : RestConn :=
  close_connection (open_connection s)

/-- C4 counterexample: a successful post leaves the connection closed, and
two successive posts perform two TLS handshakes — the connection is not
reused across `write_records` calls. -/
theorem https_post_closes_and_rehandshakes :
    (https_post restInit).isOpen = false ∧
    (https_post (https_post restInit)).handshakes = 2 := by
  constructor
  · rfl
  · rfl

/-- C4 as amended: every HTTPS `write_records` call opens a fresh connection
(one TLS handshake per call) and closes it after the response, so no
connection state survives between calls; `check_reopen_connection`, which
closes and reopens the connection when the peer has set the SSL shutdown
flag, exists but is not invoked by `https_post`. -/
theorem https_post_fresh_connection_per_call :
    (∀ s : RestConn,
       (https_post s).isOpen = false ∧
       (https_post s).handshakes = s.handshakes + 1) ∧
    (∀ s : RestConn, s.shutdownFlag = true →
       (check_reopen_connection s).1.isOpen = true ∧
       (check_reopen_connection s).2 = true) := by
  constructor
  · intro s
    exact ⟨rfl, rfl⟩
  · intro s h
    simp [check_reopen_connection, h, open_connection]

theorem https_post_fresh_connection_per_call_witness :
    (check_reopen_connection ⟨true, true, 1⟩).1.isOpen = true :=
  (https_post_fresh_connection_per_call.2 ⟨true, true, 1⟩ rfl).1

/-- `Rest::parse_response_status`: searches the response buffer with the
anchored regex `HTTP/1\.[01] ([[:digit:]]+) ` and returns the captured
status via `std::stoi`, or 0 when there is no match. -/
def parse_response_status (response : String) : Int :=
  let chars := response.data
  if chars.take 9 == "HTTP/1.0 ".data || chars.take 9 == "HTTP/1.1 ".data then
    let after := chars.drop 9
    let digits := after.takeWhile Char.isDigit
    if digits.length != 0 && (after.drop digits.length).take 1 == [' '] then
      Int.ofNat (digits.foldl (fun n c => n * 10 + (c.toNat - 48)) 0)
    else 0
  else 0

/-- the status check of `Rest::https_post`:
`assert(response_status == 201)`. -/
def status_asserted (status : Int) : Bool := status == 201

/-- acceptance of a response on the HTTPS delivery path. -/
def https_response_accepted (response : String) : Bool :=
  status_asserted (parse_response_status response)

/-- the status check of the localhost `Rest::http_post`:
`response[9] != '2'` is an error, so the response is accepted exactly when
the character at index 9 (the first digit of the status) is a 2. -/
def http_response_accepted (response : String) : Bool :=
  response.data.getD 9 (Char.ofNat 0) == '2'

/-- an HTTP/1.1 response line carrying the three status digits. -/
def statusLine (d1 d2 d3 : Fin 10) : String :=
  String.mk ("HTTP/1.1 ".data ++
    [Nat.digitChar d1.val, Nat.digitChar d2.val, Nat.digitChar d3.val] ++
    " OK\r\n".data)

/-- the status value carried by `statusLine`. -/
def statusVal (d1 d2 d3 : Fin 10) : Nat :=
  100 * d1.val + 10 * d2.val + d3.val

/-- C5 counterexample: a response with status 200 — inside the 2xx range —
is parsed as 200 and then rejected by the HTTPS delivery path, whose
assertion demands exactly 201. -/
theorem https_rejects_status_200 :
    parse_response_status "HTTP/1.1 200 OK\r\nServer: x" = 200 ∧
    https_response_accepted "HTTP/1.1 200 OK\r\nServer: x" = false := by
  constructor
  · decide
  · decide

/-- C5 as amended: the HTTPS delivery path accepts a posted batch exactly
when the response status is 201 (every other status, the rest of the 2xx
range included, fails its assertion), while the localhost plain-HTTP path
accepts exactly the statuses in the 2xx range, judged by the first status
digit; the response body is read and discarded without further
interpretation. -/
theorem https_accepts_only_201_http_accepts_2xx :
    (∀ d1 d2 d3 : Fin 10,
       https_response_accepted (statusLine d1 d2 d3) = true ↔
         statusVal d1 d2 d3 = 201) ∧
    (∀ d1 d2 d3 : Fin 10,
       http_response_accepted (statusLine d1 d2 d3) = true ↔
         (200 ≤ statusVal d1 d2 d3 ∧ statusVal d1 d2 d3 ≤ 299)) := by
  constructor
  · decide
  · decide

/-- RESULT_BUFFER_SIZE (rest_sink.hpp): the size of `_result_buffer`. -/
def RESULT_BUFFER_SIZE : Nat := 1024

/-- the terminator store of `Rest::read_response`: after `BIO_read_ex`
delivers `bytes_read` bytes (any value from 0 up to RESULT_BUFFER_SIZE, the
buffer being filled completely included), the source executes
`_result_buffer[bytes_read] = 0`; the store is modelled on a buffer of the
declared length and is none when the index falls outside it. -/
def read_response_store_nul (buffer : List Char) (bytes_read : Nat) :
    Option (List Char) :=
  if bytes_read < buffer.length then
    some (buffer.set bytes_read (Char.ofNat 0))
  else none

/-- C8, evaluated at the failing input: on the 1024-byte `_result_buffer`
the terminator store is in bounds for every byte count below 1024, but a
read that fills the buffer completely (bytes_read = 1024) makes the source
store one element past the end of the array. -/
theorem read_response_full_read_out_of_bounds :
    (read_response_store_nul (List.replicate RESULT_BUFFER_SIZE ' ')
      RESULT_BUFFER_SIZE).isSome = false ∧
    (∀ n : Fin RESULT_BUFFER_SIZE,
       (read_response_store_nul (List.replicate RESULT_BUFFER_SIZE ' ')
         n.val).isSome = true) := by
  constructor
  · simp [read_response_store_nul]
  · intro n
    simp [read_response_store_nul, n.isLt]

end Giopler
